import Mathlib

/-!
Shallow embedding of the Aries agent controller repository: the two
Controller variants (the plain `controller` module and the `controller_pkg`
module), the `Setup` coordinator of `controller_pkg/setup.py`, and the
command dispatcher. Remote agents are modelled as environments supplying
the response fields the code actually reads; every operation returns its
result together with the list of observable events (HTTP requests and
sleeps) it performs, so temporal and error-handling properties can be
stated about the traces.
-/

/-- Observable events performed by a controller operation. Sleep durations
are recorded in tenths of a time unit, so `sleep 1` is the 0.1-unit wait,
`sleep 10` the 1.0-unit wait and `sleep 20` the 2.0-unit wait of the code. -/
inductive Event where
  | get (path : String)
  | post (path : String)
  | ledgerPost
  | sleep (tenths : Nat)
deriving DecidableEq

/-- Failure outcomes of controller operations, following the spec's
taxonomy plus `indexError` for an unguarded Python list indexing of an
empty list (an untyped IndexError crash, distinct from every typed
failure) and `keyError` for an unguarded dictionary field access. -/
inductive Failure where
  | requestFailed (bodyText : String)
  | decodeFailed (bodyText : String)
  | ledgerRegistrationFailed (status : Nat)
  | recordNotFound (threadId : String)
  | schemaNotFound (name : String)
  | credDefNotFound (schemaId : String)
  | indexError
  | keyError (field : String)
deriving DecidableEq

/-- Abstract stand-in for a decoded JSON value: the repository uses the
json library as an opaque primitive (out of scope per the spec), so only
the fact of successful decoding matters, not the structure. -/
inductive Json where
  | null
  | str (s : String)
  | num (n : Int)
deriving DecidableEq

/-- Value returned by `admin_request`: `null` for an empty JSON-mode body,
a decoded JSON value, or the raw body text in text mode. -/
inductive RespVal where
  | null
  | json (j : Json)
  | text (s : String)
deriving DecidableEq

namespace Pkg

/-- Embedding of `Controller.admin_request` of
`controller_pkg/controller.py` (identical in the plain variant), acting on
one completed HTTP exchange. `decode` models the external `json.loads`
(some value on success, none on a decode error); `status` and `body` are
the response status and body text; `textMode` is the `text` flag.
`resp.raise_for_status()` raises exactly when the status is at least 400. -/
def admin_request (decode : String → Option Json) (status : Nat)
    (body : String) (textMode : Bool) : Except Failure RespVal :=
  if 400 ≤ status then
    Except.error (Failure.requestFailed body)
  else if body = "" && !textMode then
    Except.ok RespVal.null
  else if !textMode then
    match decode body with
    | some j => Except.ok (RespVal.json j)
    | none => Except.error (Failure.decodeFailed body)
  else
    Except.ok (RespVal.text body)

end Pkg

/-- Replace every space by an underscore in a list of characters; this is
Python's `.replace(" ", "_")` on the string's characters. -/
def underscoreSpaces (cs : List Char) : List Char :=
  cs.map (fun c => if c = ' ' then '_' else c)

namespace Pkg

/-- Embedding of the tag computation of `Controller.register_cred_def`:
`tag if tag else (self.ident + "." + schema_name).replace(" ", "_")`.
A `none` tag and an empty-string tag are both falsy in Python, so both
fall back to the default. Identical in both controller variants. -/
def credDefTag (ident schema_name : String) (tag : Option String) : String :=
  match tag with
  | some t => if t = "" then String.mk (underscoreSpaces (ident ++ "." ++ schema_name).data) else t
  | none => String.mk (underscoreSpaces (ident ++ "." ++ schema_name).data)

end Pkg

/-- Written from the spec's words for the default tag, for comparison with
the code: the issuer identity concatenated with a dot and the schema name,
with spaces stripped (removed). -/
def specStrippedTag (ident schema_name : String) : String :=
  String.mk ((ident ++ "." ++ schema_name).data.filter (fun c => c ≠ ' '))

/-- Written from the amended claim's words: each space replaced by an
underscore, via direct recursion over the characters. -/
def specUnderscoreTag (ident schema_name : String) : String :=
  String.mk (go (ident ++ "." ++ schema_name).data)
where
  go : List Char → List Char
  | [] => []
  | c :: cs => (if c = ' ' then '_' else c) :: go cs

theorem specUnderscoreTag_go_eq (cs : List Char) :
    specUnderscoreTag.go cs = underscoreSpaces cs := by
  induction cs with
  | nil => rfl
  | cons c cs ih => simp [specUnderscoreTag.go, underscoreSpaces] at ih ⊢; exact ih

namespace Ctrl

/-- Environment for the plain `controller/controller.py` variant's
`register_schema`: the creation response carries a `schema_id` field or
not, and the nth GET of `/schemas/created` yields the given id list. -/
structure SchemaEnv where
  postSchemaId : Option String
  created : Nat → List String

/-- Embedding of the endorsed-mode polling loop of the plain variant
(`controller/controller.py`), shared in shape by `register_schema`
(listing path `/schemas/created`) and `register_cred_def`
(`/credential-definitions/created`):

  while 0 < attempts and 0 == len(cur): cur = GET(path); if len(cur) == 0:
  sleep(1.0); attempts -= 1

The result is the final id list together with the emitted events; `i`
counts the polls already performed. -/
def pollLoop (path : String) (created : Nat → List String) :
    Nat → Nat → List String → List String × List Event
  | 0, _, cur => (cur, [])
  | a + 1, i, cur =>
    if cur.length = 0 then
      let r := created i
      if r.length = 0 then
        let rest := pollLoop path created a (i + 1) r
        (rest.1, Event.get path :: Event.sleep 10 :: rest.2)
      else
        (r, [Event.get path])
    else
      (cur, [])

/-- Embedding of `Controller.register_schema` of `controller/controller.py`
(lines 147-188): POST `/schemas`, sleep 2.0; if the response has a
`schema_id` return it, else poll `/schemas/created` with 3 attempts and
index the first element of the final `schema_ids` list (an IndexError when
it is still empty). -/
def register_schema (env : SchemaEnv) : Except Failure String × List Event :=
  let pre := [Event.post "/schemas", Event.sleep 20]
  match env.postSchemaId with
  | some sid => (Except.ok sid, pre)
  | none =>
    let polled := pollLoop "/schemas/created" env.created 3 0 []
    match polled.1 with
    | [] => (Except.error Failure.indexError, pre ++ polled.2)
    | sid :: _ => (Except.ok sid, pre ++ polled.2)

/-- Environment for the plain variant's `register_cred_def`: the creation
response carries a `credential_definition_id` field or not, and the nth
GET of `/credential-definitions/created` yields the given id list. -/
structure CredDefEnv where
  postCredDefId : Option String
  created : Nat → List String

/-- Embedding of `Controller.register_cred_def` of
`controller/controller.py` (lines 190-237): POST `/credential-definitions`,
sleep 2.0; if the response has a `credential_definition_id` return it, else
poll `/credential-definitions/created` with 3 attempts and index the first
element of the final list (an IndexError when it is still empty). Returns
the pair (schema_id, cred_def_id) on success. -/
def register_cred_def (env : CredDefEnv) (schema_id : String) :
    Except Failure (String × String) × List Event :=
  let pre := [Event.post "/credential-definitions", Event.sleep 20]
  match env.postCredDefId with
  | some cid => (Except.ok (schema_id, cid), pre)
  | none =>
    let polled := pollLoop "/credential-definitions/created" env.created 3 0 []
    match polled.1 with
    | [] => (Except.error Failure.indexError, pre ++ polled.2)
    | cid :: _ => (Except.ok (schema_id, cid), pre ++ polled.2)

/-- Embedding of `Controller.get_did` of `controller/controller.py`
(lines 65-79): when no DID is cached the code evaluates
`self.register_did()` WITHOUT awaiting it, so the coroutine is never run —
no request is sent and the cache stays unchanged; the method then returns
the (possibly absent) cached value. -/
def get_did (cached : Option String) : Option String × List Event :=
  (cached, [])

end Ctrl

namespace Pkg

/-- Environment for `controller_pkg`'s `register_schema`: the
`/schemas/created?schema_name=...` listing (`none` when the response has
no `schema_ids` key, otherwise the id list) and the `schema_id` field of
the creation response (`none` when absent, which makes the unguarded
dictionary access crash with a KeyError). -/
structure SchemaEnv where
  createdByName : String → Option (List String)
  postSchemaId : Option String

/-- Embedding of `Controller.register_schema` of
`controller_pkg/controller.py` (lines 235-266): GET the created-schemas
listing filtered by name; if it has a non-empty `schema_ids` list return
its first element without posting; otherwise POST `/schemas` and read the
response's `schema_id` field (unguarded). -/
def register_schema (env : SchemaEnv) (schema_name : String) :
    Except Failure String × List Event :=
  let getEv := Event.get "/schemas/created"
  let ids := (env.createdByName schema_name).getD []
  match ids with
  | sid :: _ => (Except.ok sid, [getEv])
  | [] =>
    match env.postSchemaId with
    | some sid => (Except.ok sid, [getEv, Event.post "/schemas"])
    | none => (Except.error (Failure.keyError "schema_id"), [getEv, Event.post "/schemas"])

/-- Environment for `controller_pkg`'s DID operations: the announced
public DID of GET `/wallet/did/public` (`none` when the result is falsy or
lacks the `did` field), the ledger registration status and the DID echoed
by the ledger's nym response. -/
structure DidEnv where
  publicDid : Option String
  ledgerStatus : Nat
  ledgerDid : String

/-- Embedding of `Controller.register_did` of
`controller_pkg/controller.py`: POST `/wallet/did/create`, POST the ledger
`/register` endpoint (failing on a non-200 status), cache the DID of the
nym response and announce it via POST `/wallet/did/public`. -/
def register_did (env : DidEnv) : Except Failure String × List Event :=
  if env.ledgerStatus ≠ 200 then
    (Except.error (Failure.ledgerRegistrationFailed env.ledgerStatus),
      [Event.post "/wallet/did/create", Event.ledgerPost])
  else
    (Except.ok env.ledgerDid,
      [Event.post "/wallet/did/create", Event.ledgerPost, Event.post "/wallet/did/public"])

/-- Embedding of `Controller.fetch_did` of `controller_pkg/controller.py`:
GET `/wallet/did/public`; cache the announced DID when present, else fall
back to `register_did`. -/
def fetch_did (env : DidEnv) : Except Failure String × List Event :=
  match env.publicDid with
  | some d => (Except.ok d, [Event.get "/wallet/did/public"])
  | none =>
    let reg := register_did env
    (reg.1, Event.get "/wallet/did/public" :: reg.2)

/-- Embedding of `Controller.get_did` of `controller_pkg/controller.py`
(lines 70-92): return the cached DID when one is set (performing no
request), else run `fetch_did`. The returned pair is (result, events);
on success the result is also the new cached value. -/
def get_did (env : DidEnv) (cached : Option String) :
    Except Failure String × List Event :=
  match cached with
  | some d => (Except.ok d, [])
  | none => fetch_did env

/-- Environment for credential-exchange record queries: the `cred_ex_id`s
of the records matching a (thread_id, state) filter, in listing order. -/
structure RecordsEnv where
  records : String → String → List String

/-- Path of the records listing endpoint. -/
def recordsPath : String := "/issue-credential-2.0/records"

/-- Embedding of `Controller.request_credential` of
`controller_pkg/controller.py` (lines 388-408): query the records with
filter (thread_id, offer-received); when none match raise the
record-not-found failure without posting; otherwise query again, take the
first record's `cred_ex_id` and POST its send-request endpoint. -/
def request_credential (env : RecordsEnv) (thread_id : String) :
    Except Failure String × List Event :=
  match env.records thread_id "offer-received" with
  | [] => (Except.error (Failure.recordNotFound thread_id), [Event.get recordsPath])
  | cid :: _ =>
    (Except.ok cid,
      [Event.get recordsPath, Event.get recordsPath,
        Event.post (recordsPath ++ "/" ++ cid ++ "/send-request")])

/-- Embedding of `Controller.issue_credential` of
`controller_pkg/controller.py` (lines 410-430): query the records with
filter (thread_id, request-received); when none match raise the
record-not-found failure without posting; otherwise query again, take the
first record's `cred_ex_id` and POST its issue endpoint. -/
def issue_credential (env : RecordsEnv) (thread_id : String) :
    Except Failure String × List Event :=
  match env.records thread_id "request-received" with
  | [] => (Except.error (Failure.recordNotFound thread_id), [Event.get recordsPath])
  | cid :: _ =>
    (Except.ok cid,
      [Event.get recordsPath, Event.get recordsPath,
        Event.post (recordsPath ++ "/" ++ cid ++ "/issue")])

/-- Environment for `accept_connection_request`: the `connection_id`s of
the connections matching a their_did filter, in listing order. -/
structure ConnEnv where
  connectionsByDid : String → List String

/-- Embedding of `Controller.accept_connection_request` of
`controller_pkg/controller.py` (lines 190-204): GET `/connections`
filtered by the peer DID, index the first result's `connection_id`
(an unguarded IndexError when the listing is empty), then POST its
accept-request endpoint. -/
def accept_connection_request (env : ConnEnv) (their_did : String) :
    Except Failure String × List Event :=
  match env.connectionsByDid their_did with
  | [] => (Except.error Failure.indexError, [Event.get "/connections"])
  | cid :: _ =>
    (Except.ok cid,
      [Event.get "/connections",
        Event.post ("/connections/" ++ cid ++ "/accept-request")])

end Pkg

namespace Setup

/-- Observable events of `Setup.exchange_credential` of
`controller_pkg/setup.py`: the issuer's offer POST, each polling query of
a party's records listing with the boolean it returned, the 0.1-unit
sleeps (recorded as `sleep 1`, in tenths), the holder's request and the
issuer's issue call. -/
inductive XEvent where
  | offer
  | holderPoll (found : Bool)
  | issuerPoll (found : Bool)
  | sleep (tenths : Nat)
  | request
  | issue
deriving DecidableEq

/-- Embedding of one `while not predicate(): sleep(0.1)` polling loop of
`exchange_credential`. The oracle gives the boolean the nth
`has_credential_exchange_record` query returns; the loop itself is
unbounded, so a fuel argument bounds the recursion and `none` means the
fuel ran out before the predicate held. Each failed poll is followed by a
0.1-unit sleep; the loop body shifts the oracle by one query. -/
def pollUntil (oracle : Nat → Bool) (mk : Bool → XEvent) : Nat → Option (List XEvent)
  | 0 => none
  | fuel + 1 =>
    if oracle 0 then
      some [mk true]
    else
      (pollUntil (fun i => oracle (i + 1)) mk fuel).map
        (fun t => mk false :: XEvent.sleep 1 :: t)

/-- Embedding of `Setup.exchange_credential` of `controller_pkg/setup.py`
(lines 71-102): the issuer offers; the coordinator polls the holder's
records for the thread (oracle `ho`) until present, then the holder
requests; the coordinator polls the issuer's records for the thread in
state request-received (oracle `io`) until present, then the issuer
issues. Fuel bounds the otherwise unbounded polling loops. -/
def exchange_credential (ho io : Nat → Bool) (fuel : Nat) : Option (List XEvent) :=
  match pollUntil ho XEvent.holderPoll fuel with
  | none => none
  | some t1 =>
    match pollUntil io XEvent.issuerPoll fuel with
    | none => none
    | some t2 =>
      some (XEvent.offer :: t1 ++ XEvent.request :: t2 ++ [XEvent.issue])

/-- Trace fragment of k failed polls, each followed by a 0.1-unit sleep. -/
def failPolls (mk : Bool → XEvent) : Nat → List XEvent
  | 0 => []
  | k + 1 => mk false :: XEvent.sleep 1 :: failPolls mk k

end Setup

namespace Dispatcher

/-- Python's `str.isdigit` for the ASCII command strings of the prompt:
non-empty and all characters decimal digits. -/
def isDigitStr (s : String) : Bool :=
  !s.data.isEmpty && s.data.all Char.isDigit

/-- Python's `int` on a digit string. -/
def strToNat (s : String) : Nat :=
  s.data.foldl (fun n c => n * 10 + (c.toNat - 48)) 0

/-- Embedding of `Controller.execute` (identical in both variants,
`controller_pkg/controller.py` lines 556-571): the registry is the list of
registered command names in registration order (Python dict keys preserve
insertion order). A digit string is resolved as a 0-based index, reported
as invalid when out of range; the resolved or given name is then looked up
and reported when unknown. The result is the invoked command name (`none`
when nothing is invoked) together with the registry afterwards, which the
code never mutates. -/
def execute (commands : List String) (command : String) : Option String × List String :=
  if isDigitStr command then
    let index := strToNat command
    if h : commands.length ≤ index then
      (none, commands)
    else
      let resolved := commands.get ⟨index, by omega⟩
      if resolved ∈ commands then (some resolved, commands) else (none, commands)
  else
    if command ∈ commands then (some command, commands) else (none, commands)

end Dispatcher

/-- Endorsed-mode environment for C1 in which the creation response lacks
the id field and every poll of the created-schemas listing is empty. -/
def c1SchemaEnv : Ctrl.SchemaEnv where
  postSchemaId := none
  created := fun _ => []

/-- Endorsed-mode environment for C1, credential-definition side. -/
def c1CredDefEnv : Ctrl.CredDefEnv where
  postCredDefId := none
  created := fun _ => []

/-- Claim C1. The claim says that on an endorsed-mode registration whose
three polls all return an empty id list the operation fails with the typed
SchemaNotFound (resp. CredDefNotFound) failure. The code instead indexes
the first element of the still-empty list and crashes with an IndexError:
evaluated here at that exact input for both `register_schema` and
`register_cred_def` of the plain controller variant. The spec itself marks
this as a defect to fix, so the claim is right and the code is wrong. -/
theorem claim_C1_exhausted_polls_crash :
    Ctrl.register_schema c1SchemaEnv =
      (Except.error Failure.indexError,
        [Event.post "/schemas", Event.sleep 20,
          Event.get "/schemas/created", Event.sleep 10,
          Event.get "/schemas/created", Event.sleep 10,
          Event.get "/schemas/created", Event.sleep 10]) ∧
    Ctrl.register_cred_def c1CredDefEnv "Av1:2:demo:1.0" =
      (Except.error Failure.indexError,
        [Event.post "/credential-definitions", Event.sleep 20,
          Event.get "/credential-definitions/created", Event.sleep 10,
          Event.get "/credential-definitions/created", Event.sleep 10,
          Event.get "/credential-definitions/created", Event.sleep 10]) ∧
    (Except.error Failure.indexError : Except Failure String) ≠
      Except.error (Failure.schemaNotFound "demo") := by
  refine ⟨rfl, rfl, by simp⟩

/-- Endorsed-mode environment for C8: the creation response lacks the id
field; the listing is empty on the first two polls and contains exactly
the schema id on the third. -/
def c8SchemaEnv : Ctrl.SchemaEnv where
  postSchemaId := none
  created := fun n => if n = 2 then ["Av1:2:demo:1.0"] else []

/-- Claim C8: with two empty polls and a third poll returning the id,
`register_schema` of the plain variant returns that id, and the 1.0-unit
inter-attempt sleeps (distinct from the fixed 2.0-unit settle after the
creation POST) happen exactly twice. -/
theorem claim_C8_third_poll_succeeds :
    Ctrl.register_schema c8SchemaEnv =
      (Except.ok "Av1:2:demo:1.0",
        [Event.post "/schemas", Event.sleep 20,
          Event.get "/schemas/created", Event.sleep 10,
          Event.get "/schemas/created", Event.sleep 10,
          Event.get "/schemas/created"]) ∧
    ((Ctrl.register_schema c8SchemaEnv).2.filter
      (fun e => e = Event.sleep 10)).length = 2 := by
  refine ⟨rfl, rfl⟩

/-- Claim C2: when the filtered records listing for the required state is
empty, `request_credential` (state offer-received) and `issue_credential`
(state request-received) fail with the record-not-found failure for that
thread id, the trace is the single listing GET, and in particular no
send-request or issue POST is made. -/
theorem claim_C2_record_not_found (env : Pkg.RecordsEnv) (thread_id : String) :
    (env.records thread_id "offer-received" = [] →
      Pkg.request_credential env thread_id =
        (Except.error (Failure.recordNotFound thread_id), [Event.get Pkg.recordsPath]) ∧
      ∀ p, Event.post p ∉ (Pkg.request_credential env thread_id).2) ∧
    (env.records thread_id "request-received" = [] →
      Pkg.issue_credential env thread_id =
        (Except.error (Failure.recordNotFound thread_id), [Event.get Pkg.recordsPath]) ∧
      ∀ p, Event.post p ∉ (Pkg.issue_credential env thread_id).2) := by
  constructor
  · intro h
    refine ⟨by simp [Pkg.request_credential, h], ?_⟩
    intro p
    simp [Pkg.request_credential, h]
  · intro h
    refine ⟨by simp [Pkg.issue_credential, h], ?_⟩
    intro p
    simp [Pkg.issue_credential, h]

/-- Records environment for the C2 witness: no records at all. -/
def c2Env : Pkg.RecordsEnv where
  records := fun _ _ => []

/-- Witness for C2 at a concrete thread id over an agent with no records. -/
theorem claim_C2_record_not_found_witness :
    Pkg.request_credential c2Env "tid-1" =
      (Except.error (Failure.recordNotFound "tid-1"), [Event.get Pkg.recordsPath]) ∧
    Pkg.issue_credential c2Env "tid-1" =
      (Except.error (Failure.recordNotFound "tid-1"), [Event.get Pkg.recordsPath]) :=
  ⟨((claim_C2_record_not_found c2Env "tid-1").1 rfl).1,
   ((claim_C2_record_not_found c2Env "tid-1").2 rfl).1⟩

/-- Claim C10: when the connection listing filtered by the peer DID is
empty, `accept_connection_request` fails with the untyped IndexError of
indexing an empty list (not a typed failure), and the accept-request POST
appears in the trace only when at least one connection matches. -/
theorem claim_C10_accept_unguarded (env : Pkg.ConnEnv) (their_did : String) :
    (env.connectionsByDid their_did = [] →
      Pkg.accept_connection_request env their_did =
        (Except.error Failure.indexError, [Event.get "/connections"])) ∧
    (∀ p, Event.post p ∈ (Pkg.accept_connection_request env their_did).2 →
      env.connectionsByDid their_did ≠ []) := by
  constructor
  · intro h
    simp [Pkg.accept_connection_request, h]
  · intro p hp
    cases hcs : env.connectionsByDid their_did with
    | nil => rw [Pkg.accept_connection_request, hcs] at hp; simp at hp
    | cons c cs => simp

/-- Connection environment for the C10 witness: empty listing for every
peer DID. -/
def c10Env : Pkg.ConnEnv where
  connectionsByDid := fun _ => []

/-- Witness for C10 at a concrete peer DID with an empty listing. -/
theorem claim_C10_accept_unguarded_witness :
    Pkg.accept_connection_request c10Env "did:sov:peer" =
      (Except.error Failure.indexError, [Event.get "/connections"]) :=
  (claim_C10_accept_unguarded c10Env "did:sov:peer").1 rfl

/-- Decoder used in the C6 counterexample: decodes nothing. -/
def c6NoDecode : String → Option Json := fun _ => none

/-- Counterexample to C6 as stated: a completed exchange with status 304
(non-2xx) and empty body in JSON mode returns null instead of failing with
RequestFailed, because the code's `raise_for_status` only raises for
statuses of 400 and above. -/
theorem counterexample_C6_status_304 :
    (304 < 200 ∨ 300 ≤ 304) ∧
    Pkg.admin_request c6NoDecode 304 "" false = Except.ok RespVal.null ∧
    Pkg.admin_request c6NoDecode 304 "" false ≠
      Except.error (Failure.requestFailed "") := by
  refine ⟨by omega, rfl, by simp [Pkg.admin_request]⟩

/-- Claim C6 as amended: for a completed exchange in JSON mode, a status
of at least 400 fails with RequestFailed carrying the body text; a status
below 400 with empty body returns null; a status below 400 with a
non-empty body the decoder rejects fails with DecodeFailed carrying the
body text; a status below 400 with a non-empty decodable body returns the
decoded JSON value. -/
theorem claim_C6_admin_request_amended (decode : String → Option Json)
    (status : Nat) (body : String) :
    (400 ≤ status →
      Pkg.admin_request decode status body false =
        Except.error (Failure.requestFailed body)) ∧
    (status < 400 → body = "" →
      Pkg.admin_request decode status body false = Except.ok RespVal.null) ∧
    (status < 400 → body ≠ "" → decode body = none →
      Pkg.admin_request decode status body false =
        Except.error (Failure.decodeFailed body)) ∧
    (status < 400 → body ≠ "" → ∀ j, decode body = some j →
      Pkg.admin_request decode status body false =
        Except.ok (RespVal.json j)) := by
  refine ⟨fun h => ?_, fun h hb => ?_, fun h hb hd => ?_, fun h hb j hd => ?_⟩
  · simp [Pkg.admin_request, h]
  · have hn : ¬ 400 ≤ status := by omega
    simp [Pkg.admin_request, hn, hb]
  · have hn : ¬ 400 ≤ status := by omega
    simp [Pkg.admin_request, hn, hb, hd]
  · have hn : ¬ 400 ≤ status := by omega
    simp [Pkg.admin_request, hn, hb, hd]

/-- Decoder used in the C6 witness: accepts only one fixed body. -/
def c6Decode : String → Option Json :=
  fun s => if s = "7" then some (Json.num 7) else none

/-- Witness for the amended C6, covering all four branches at concrete
statuses and bodies. -/
theorem claim_C6_admin_request_amended_witness :
    Pkg.admin_request c6Decode 404 "oops" false =
      Except.error (Failure.requestFailed "oops") ∧
    Pkg.admin_request c6Decode 200 "" false = Except.ok RespVal.null ∧
    Pkg.admin_request c6Decode 200 "bad" false =
      Except.error (Failure.decodeFailed "bad") ∧
    Pkg.admin_request c6Decode 200 "7" false =
      Except.ok (RespVal.json (Json.num 7)) :=
  ⟨(claim_C6_admin_request_amended c6Decode 404 "oops").1 (by omega),
   (claim_C6_admin_request_amended c6Decode 200 "").2.1 (by omega) rfl,
   (claim_C6_admin_request_amended c6Decode 200 "bad").2.2.1 (by omega)
     (by simp) rfl,
   (claim_C6_admin_request_amended c6Decode 200 "7").2.2.2 (by omega)
     (by simp) (Json.num 7) rfl⟩

/-- Counterexample to C7 as stated: with issuer identity A and schema name
containing a space, the code's default tag replaces the space with an
underscore, while the claim's "spaces stripped" reading removes it; the
two disagree. -/
theorem counterexample_C7_spaces :
    Pkg.credDefTag "A" "my schema" none = "A.my_schema" ∧
    specStrippedTag "A" "my schema" = "A.myschema" ∧
    Pkg.credDefTag "A" "my schema" none ≠ specStrippedTag "A" "my schema" := by
  refine ⟨rfl, rfl, by decide⟩

/-- Claim C7 as amended: when the tag argument is absent (or the empty
string, which Python treats as falsy), the tag is the issuer identity,
a dot and the schema name with EACH SPACE REPLACED BY AN UNDERSCORE;
a supplied non-empty tag is used unchanged. -/
theorem claim_C7_tag_amended (ident schema_name : String) :
    Pkg.credDefTag ident schema_name none = specUnderscoreTag ident schema_name ∧
    Pkg.credDefTag ident schema_name (some "") = specUnderscoreTag ident schema_name ∧
    (∀ t : String, t ≠ "" → Pkg.credDefTag ident schema_name (some t) = t) := by
  refine ⟨?_, ?_, ?_⟩
  · simp [Pkg.credDefTag, specUnderscoreTag, specUnderscoreTag_go_eq]
  · simp [Pkg.credDefTag, specUnderscoreTag, specUnderscoreTag_go_eq]
  · intro t ht
    simp [Pkg.credDefTag, ht]

/-- Witness for the amended C7 at a concrete identity, schema name and
supplied tag. -/
theorem claim_C7_tag_amended_witness :
    Pkg.credDefTag "A" "my schema" none = specUnderscoreTag "A" "my schema" ∧
    Pkg.credDefTag "A" "my schema" (some "T1") = "T1" :=
  ⟨(claim_C7_tag_amended "A" "my schema").1,
   (claim_C7_tag_amended "A" "my schema").2.2 "T1" (by simp)⟩

/-- Claim C9: a digit string whose index is at least the number of
registered commands, or a non-digit string that is not a registered name,
invokes nothing and leaves the registry unchanged; a digit string with an
in-range index invokes the command at that 0-based registration position,
and a registered name invokes that command, in both cases exactly once
(the invoked-command component of the result records the single
invocation). -/
theorem claim_C9_execute (commands : List String) (command : String) :
    (Dispatcher.isDigitStr command = true →
      commands.length ≤ Dispatcher.strToNat command →
      Dispatcher.execute commands command = (none, commands)) ∧
    (Dispatcher.isDigitStr command = false → command ∉ commands →
      Dispatcher.execute commands command = (none, commands)) ∧
    (∀ h : Dispatcher.strToNat command < commands.length,
      Dispatcher.isDigitStr command = true →
      Dispatcher.execute commands command =
        (some (commands.get ⟨Dispatcher.strToNat command, h⟩), commands)) ∧
    (Dispatcher.isDigitStr command = false → command ∈ commands →
      Dispatcher.execute commands command = (some command, commands)) := by
  refine ⟨fun hd hle => ?_, fun hd hmem => ?_, fun h hd => ?_, fun hd hmem => ?_⟩
  · simp [Dispatcher.execute, hd, hle]
  · simp [Dispatcher.execute, hd, hmem]
  · have hn : ¬ commands.length ≤ Dispatcher.strToNat command := by omega
    simp [Dispatcher.execute, hd, hn, List.get_mem]
  · simp [Dispatcher.execute, hd, hmem]

/-- Registry for the C9 witness, in registration order. -/
def c9Commands : List String := ["register_did", "register_schema"]

/-- Witness for C9: an out-of-range index and an unknown name invoke
nothing; a valid index and a valid name invoke the selected command. -/
theorem claim_C9_execute_witness :
    Dispatcher.execute c9Commands "5" = (none, c9Commands) ∧
    Dispatcher.execute c9Commands "offer" = (none, c9Commands) ∧
    Dispatcher.execute c9Commands "1" = (some "register_schema", c9Commands) ∧
    Dispatcher.execute c9Commands "register_did" = (some "register_did", c9Commands) :=
  ⟨(claim_C9_execute c9Commands "5").1 (by decide) (by decide),
   (claim_C9_execute c9Commands "offer").2.1 (by decide) (by decide),
   (claim_C9_execute c9Commands "1").2.2.1 (by decide) (by decide),
   (claim_C9_execute c9Commands "register_did").2.2.2 (by decide) (by decide)⟩

/-- Environment for the C3 counterexample on the plain controller variant:
the created-schemas listing already holds an id, and the creation response
carries a fresh id. -/
def c3CtrlEnv : Ctrl.SchemaEnv where
  postSchemaId := some "New:2:demo:1.0"
  created := fun _ => ["Prior:2:demo:1.0"]

/-- Counterexample to C3 as stated: the plain controller variant never
consults the created-schemas listing before creating, so even though the
listing is non-empty it issues the POST /schemas creation request and
returns the creation response's id, not the existing listed id. -/
theorem counterexample_C3_ctrl_always_posts :
    c3CtrlEnv.created 0 = ["Prior:2:demo:1.0"] ∧
    Event.post "/schemas" ∈ (Ctrl.register_schema c3CtrlEnv).2 ∧
    (Ctrl.register_schema c3CtrlEnv).1 ≠ Except.ok "Prior:2:demo:1.0" := by
  refine ⟨rfl, by simp [Ctrl.register_schema, c3CtrlEnv], by simp [Ctrl.register_schema, c3CtrlEnv]⟩

/-- Claim C3 as amended: for every schema name whose filtered
created-schemas listing is non-empty, the controller_pkg variant's
`register_schema` returns the first existing schema id and issues no
POST /schemas; the plain controller variant, which never consults the
listing before creating, always issues the creation POST. -/
theorem claim_C3_idempotent_amended (env : Pkg.SchemaEnv) (name sid : String)
    (rest : List String) (h : env.createdByName name = some (sid :: rest)) :
    Pkg.register_schema env name = (Except.ok sid, [Event.get "/schemas/created"]) ∧
    (∀ p, Event.post p ∉ (Pkg.register_schema env name).2) ∧
    (∀ e : Ctrl.SchemaEnv, Event.post "/schemas" ∈ (Ctrl.register_schema e).2) := by
  refine ⟨by simp [Pkg.register_schema, h], ?_, ?_⟩
  · intro p
    simp [Pkg.register_schema, h]
  · intro e
    cases he : e.postSchemaId with
    | some s => simp [Ctrl.register_schema, he]
    | none =>
      simp only [Ctrl.register_schema, he]
      cases (Ctrl.pollLoop "/schemas/created" e.created 3 0 []).1 <;> simp

/-- Environment for the C3 witness: the listing filtered by the schema
name demo already holds one id. -/
def c3PkgEnv : Pkg.SchemaEnv where
  createdByName := fun n => if n = "demo" then some ["Av1:2:demo:1.0"] else none
  postSchemaId := some "Other:2:demo:2.0"

/-- Witness for the amended C3 at a concrete environment and schema name. -/
theorem claim_C3_idempotent_amended_witness :
    Pkg.register_schema c3PkgEnv "demo" =
      (Except.ok "Av1:2:demo:1.0", [Event.get "/schemas/created"]) :=
  (claim_C3_idempotent_amended c3PkgEnv "demo" "Av1:2:demo:1.0" [] rfl).1

/-- DID environment for C4 in which the agent announces a public DID. -/
def c4AnnouncedEnv : Pkg.DidEnv where
  publicDid := some "PubDid0001"
  ledgerStatus := 200
  ledgerDid := "LedDid0001"

/-- DID environment for C4 in which no public DID is announced and the
ledger accepts the registration. -/
def c4FreshEnv : Pkg.DidEnv where
  publicDid := none
  ledgerStatus := 200
  ledgerDid := "LedDid0002"

/-- Claim C4. The packaged variant's `get_did` behaves exactly as claimed:
a cached identifier is returned with no remote call; an uncached call
fetches the announced public identifier; when none is announced a fresh
one is registered; once cached, every later call returns the same value
with no events. The plain controller variant, however, never awaits the
`register_did()` coroutine it builds, so the uncached call performs no
request at all and returns no identifier — contradicting both the claim
and the method's own docstring. The first conjunct evaluates that variant
at the failing input. -/
theorem claim_C4_get_did :
    Ctrl.get_did none = (none, []) ∧
    Ctrl.get_did (some "D1") = (some "D1", []) ∧
    Pkg.get_did c4AnnouncedEnv (some "Cached01") = (Except.ok "Cached01", []) ∧
    Pkg.get_did c4AnnouncedEnv none =
      (Except.ok "PubDid0001", [Event.get "/wallet/did/public"]) ∧
    Pkg.get_did c4FreshEnv none =
      (Except.ok "LedDid0002",
        [Event.get "/wallet/did/public", Event.post "/wallet/did/create",
          Event.ledgerPost, Event.post "/wallet/did/public"]) ∧
    Pkg.get_did c4FreshEnv (some "LedDid0002") = (Except.ok "LedDid0002", []) := by
  refine ⟨rfl, rfl, rfl, rfl, ?_, rfl⟩
  simp [Pkg.get_did, Pkg.fetch_did, Pkg.register_did, c4FreshEnv]

/-- A polling loop whose oracle is false for the first k queries and true
on query k produces exactly k failed polls, each followed by one 0.1-unit
sleep, then the successful poll, for any fuel exceeding k. -/
theorem pollUntil_first_true (mk : Bool → Setup.XEvent) :
    ∀ (k : Nat) (o : Nat → Bool), (∀ i, i < k → o i = false) → o k = true →
    ∀ f, k < f →
    Setup.pollUntil o mk f = some (Setup.failPolls mk k ++ [mk true]) := by
  intro k
  induction k with
  | zero =>
    intro o h0 hk f hf
    match f, hf with
    | f + 1, _ => simp [Setup.pollUntil, hk, Setup.failPolls]
  | succ k ih =>
    intro o h0 hk f hf
    match f, hf with
    | f + 1, hf =>
      have o0 : o 0 = false := h0 0 (Nat.succ_pos k)
      have hrec : Setup.pollUntil (fun i => o (i + 1)) mk f =
          some (Setup.failPolls mk k ++ [mk true]) :=
        ih (fun i => o (i + 1)) (fun i hi => h0 (i + 1) (by omega)) hk f (by omega)
      simp [Setup.pollUntil, o0, hrec, Setup.failPolls]

/-- Claim C5: in `exchange_credential`, when the holder's record query
first succeeds on attempt hk and the issuer's request-received query first
succeeds on attempt ik, the trace (for any sufficient fuel; the code's
loops are unbounded, so every hk and ik is eventually reached) is: the
offer, then hk failed holder polls each followed by a 0.1-unit sleep, then
the successful holder poll, then — and only then — the holder's
request_credential; then ik failed issuer polls each followed by a
0.1-unit sleep, then the successful issuer poll, then — and only then —
the issuer's issue_credential. -/
theorem claim_C5_exchange_credential_order (ho io : Nat → Bool) (hk ik : Nat)
    (hho : ∀ i, i < hk → ho i = false) (hhk : ho hk = true)
    (hio : ∀ i, i < ik → io i = false) (hik : io ik = true)
    (fuel : Nat) (hfh : hk < fuel) (hfi : ik < fuel) :
    Setup.exchange_credential ho io fuel =
      some (Setup.XEvent.offer ::
        (Setup.failPolls Setup.XEvent.holderPoll hk ++ [Setup.XEvent.holderPoll true]) ++
        Setup.XEvent.request ::
        (Setup.failPolls Setup.XEvent.issuerPoll ik ++ [Setup.XEvent.issuerPoll true]) ++
        [Setup.XEvent.issue]) := by
  have h1 := pollUntil_first_true Setup.XEvent.holderPoll hk ho hho hhk fuel hfh
  have h2 := pollUntil_first_true Setup.XEvent.issuerPoll ik io hio hik fuel hfi
  simp [Setup.exchange_credential, h1, h2]

/-- Witness for C5: the holder's record appears on the third poll, the
issuer's request-received record on the second, with fuel 4. -/
theorem claim_C5_exchange_credential_order_witness :
    Setup.exchange_credential (fun i => decide (2 ≤ i)) (fun i => decide (1 ≤ i)) 4 =
      some [Setup.XEvent.offer,
        Setup.XEvent.holderPoll false, Setup.XEvent.sleep 1,
        Setup.XEvent.holderPoll false, Setup.XEvent.sleep 1,
        Setup.XEvent.holderPoll true, Setup.XEvent.request,
        Setup.XEvent.issuerPoll false, Setup.XEvent.sleep 1,
        Setup.XEvent.issuerPoll true, Setup.XEvent.issue] := by
  have h := claim_C5_exchange_credential_order
    (fun i => decide (2 ≤ i)) (fun i => decide (1 ≤ i)) 2 1
    (fun i hi => by simp; omega) (by decide)
    (fun i hi => by simp; omega) (by decide)
    4 (by decide) (by decide)
  simpa [Setup.failPolls] using h

